import Mathlib

/-!
Verification development for the spixels pixel-pusher output-device adapter
(src/spixels-pixel-push.cc).

The adapter classes `APA102SpixelsDevice` and `LPD6803SpixelsDevice` are shallowly
embedded: each adapter entry point is translated to a pure function that returns the
sequence of driver calls (`SetBrightnessScale`, `SetPixel8`, `SendBuffers`, plus the
stderr diagnostic for unknown commands) that the C++ method performs.  Bytes are
modelled as `Nat` (values below 256); the target platform is little-endian ARM Linux,
where `char` is unsigned, so `buf[1]` read into a `uint32_t` is the plain byte value.

The brightness computation `brightnessScale16 / 65536.0f` is performed in IEEE-754
single precision in the source, but every intermediate value is exactly representable
there: `brightnessScale16` is at most `0x10000 < 2^24`, and the divisor is a power of
two, so the float result is exactly the rational `brightnessScale16 / 65536`.  The
embedding therefore uses `ℚ` for brightness scales with no loss of fidelity.

The external spixels strip drivers and the multi-SPI bus controller are modelled from
the spec (they are collaborators outside this repository): each strip driver holds a
last-set brightness scale and an 8-bit pixel buffer, and `SendBuffers` transmits a
snapshot of all buffered pixel state.
-/

namespace Spixels

/-- Modelled from the spec: the command-tag constants `PPPusherCommandGlobalBrightness`
and `PPPusherCommandStripBrightness` come from the pp-server protocol header included
by the source but not present under src/.  Only their distinctness matters to the
adapter logic; the values follow the PixelPusher protocol command numbering. -/
def PPPusherCommandGlobalBrightness : Nat := 2

/-- Modelled from the spec: see `PPPusherCommandGlobalBrightness`. -/
def PPPusherCommandStripBrightness : Nat := 5

/-- `pp::PixelColor`: a triple of 8-bit channel values. -/
structure PixelColor where
  red : Nat
  green : Nat
  blue : Nat
  deriving DecidableEq

/-- One driver-level call made by an adapter method: a `SetBrightnessScale` or
`SetPixel8` call on a strip driver, a `SendBuffers` call on the bus controller, or
the stderr diagnostic printed for an unknown command tag. -/
inductive Action where
  | setBrightnessScale (strip : Nat) (scale : ℚ)
  | setPixel8 (strip : Nat) (pixel : Nat) (r : Nat) (g : Nat) (b : Nat)
  | sendBuffers
  | diagUnknownCommand (tag : Nat)
  deriving DecidableEq

/-- The little-endian 16-bit load `*(uint16_t*)(buf + off)` on the little-endian
target: byte `off` plus 256 times byte `off+1`.  Out-of-range reads default to 0;
every use in the adapter is guarded by a size check, proved below. -/
def read16LE (buf : List Nat) (off : Nat) : Nat :=
  buf.getD off 0 + 256 * buf.getD (off + 1) 0

/-- `brightnessScale16 / 65536.0f` from the source, as an exact rational (see the
file comment for why single-precision float is exact here). -/
def brightnessScale (brightnessScale16 : Nat) : ℚ :=
  (brightnessScale16 : ℚ) / 65536

/-- A strip-driver handle as allocated at construction: the bus controller it is
bound to, its hardware pin, and its pixel count. -/
structure StripHandle where
  spi : Nat
  pin : Nat
  len : Nat
  deriving DecidableEq

/-- Modelled from the spec: `spixels::MultiSPI::SPIPinForConnector`, the external
lane-assignment lookup by connector number.  The mapping itself is opaque to this
program; only which connector each strip binds to matters (connector = strip + 1). -/
def SPIPinForConnector (connector : Nat) : Nat := connector

/-- One call through the `pp::OutputDevice` contract, as issued by the protocol
server. -/
inductive DeviceOp where
  | pusherCommand (buf : List Nat) (size : Nat)
  | setPixel (strip : Nat) (pixel : Nat) (col : PixelColor)
  | flushFrame

namespace APA102SpixelsDevice

/-- The member state of `APA102SpixelsDevice` (src lines 131-135): the two const
counts fixed at construction, the owned array of strip-driver handles, and the one
shared bus controller. -/
structure State where
  num_strips_ : Nat
  strip_len_ : Nat
  strips_ : List StripHandle
  spi_ : Nat

/-- The constructor (src lines 46-58): allocate one bus controller and then one
APA102 strip driver per strip, each on the pin for connector `strip + 1`, all
sharing the bus controller. -/
def construct (num_strips strip_len spiId : Nat) : State :=
  { num_strips_ := num_strips
    strip_len_ := strip_len
    strips_ := (List.range num_strips).map
      (fun strip => { spi := spiId, pin := SPIPinForConnector (strip + 1), len := strip_len })
    spi_ := spiId }

/-- `num_strips()` (src line 67). -/
def num_strips (d : State) : Nat := d.num_strips_

/-- `num_pixel_per_strip()` (src line 68). -/
def num_pixel_per_strip (d : State) : Nat := d.strip_len_

/-- The driver calls made by `APA102SpixelsDevice::HandlePusherCommand(buf, size)`
(src lines 70-116).  `buf` is the byte buffer, `size` the byte count; dispatch is on
byte 0, GlobalBrightness requires `size >= 3` and sets every strip in a loop over
`0..num_strips-1`, StripBrightness requires `size >= 4`, targets the strip named by
byte 1 and drops out-of-range indices, and any other tag is reported on stderr. -/
def HandlePusherCommand (num_strips : Nat) (buf : List Nat) (size : Nat) : List Action :=
  if 1 ≤ size then
    if buf.getD 0 0 = PPPusherCommandGlobalBrightness then
      if 3 ≤ size then
        (List.range num_strips).map
          (fun strip => Action.setBrightnessScale strip (brightnessScale (read16LE buf 1 + 1)))
      else []
    else if buf.getD 0 0 = PPPusherCommandStripBrightness then
      if 4 ≤ size then
        if buf.getD 1 0 < num_strips then
          [Action.setBrightnessScale (buf.getD 1 0) (brightnessScale (read16LE buf 2 + 1))]
        else []
      else []
    else [Action.diagUnknownCommand (buf.getD 0 0)]
  else []

/-- The driver calls made by `APA102SpixelsDevice::SetPixel(strip, pixel, col)`
(src lines 118-124): forward to `SetPixel8` when the strip index is in range, with
no check on the pixel index. -/
def SetPixel (num_strips : Nat) (strip : Nat) (pixel : Nat) (col : PixelColor) : List Action :=
  if strip < num_strips then
    [Action.setPixel8 strip pixel col.red col.green col.blue]
  else []

/-- The driver calls made by `APA102SpixelsDevice::FlushFrame()` (src lines 126-129). -/
def FlushFrame : List Action := [Action.sendBuffers]

/-- One protocol-server call on the device: the methods read the const members but
never assign to them, so the member state is returned unchanged alongside the trace
of driver calls. -/
def runOp (d : State) (op : DeviceOp) : State × List Action :=
  match op with
  | DeviceOp.pusherCommand buf size => (d, HandlePusherCommand d.num_strips_ buf size)
  | DeviceOp.setPixel strip pixel col => (d, SetPixel d.num_strips_ strip pixel col)
  | DeviceOp.flushFrame => (d, FlushFrame)

/-- The member state after a sequence of protocol-server calls. -/
def runOps (d : State) (ops : List DeviceOp) : State :=
  ops.foldl (fun d op => (runOp d op).fst) d

end APA102SpixelsDevice

namespace LPD6803SpixelsDevice

/-- The driver calls made by `LPD6803SpixelsDevice` in response to
`HandlePusherCommand` (src lines 144-188): the class does not override
`HandlePusherCommand` at all.  The inherited `pp::OutputDevice` handler lives
outside this repository and has no access to the private `strips_` array or `spi_`
member, so whatever it does, this variant makes no driver calls for any pusher
command. -/
def HandlePusherCommand (num_strips : Nat) (buf : List Nat) (size : Nat) : List Action := []

/-- The driver calls made by `LPD6803SpixelsDevice::SetPixel(strip, pixel, col)`
(src lines 170-176): textually identical to the APA102 variant. -/
def SetPixel (num_strips : Nat) (strip : Nat) (pixel : Nat) (col : PixelColor) : List Action :=
  if strip < num_strips then
    [Action.setPixel8 strip pixel col.red col.green col.blue]
  else []

/-- The driver calls made by `LPD6803SpixelsDevice::FlushFrame()` (src lines
178-181): textually identical to the APA102 variant. -/
def FlushFrame : List Action := [Action.sendBuffers]

end LPD6803SpixelsDevice

/-- Modelled from the spec: the observable state held by the external strip drivers
and bus controller for one rig — the last-set brightness scale per strip, the
buffered pixel colors per strip, and the list of full-buffer snapshots handed to the
hardware by successive `SendBuffers` calls. -/
structure RigState where
  brightness : Nat → ℚ
  buffer : Nat → Nat → PixelColor
  transmitted : List (Nat → Nat → PixelColor)

/-- Modelled from the spec: the effect of one driver call on the rig.
`SetBrightnessScale` overwrites one strip's scale, `SetPixel8` overwrites one
buffered pixel, `SendBuffers` appends a snapshot of the current buffer to the
transmitted history, and the stderr diagnostic changes nothing. -/
def stepAction (s : RigState) (a : Action) : RigState :=
  match a with
  | Action.setBrightnessScale strip scale =>
      { s with brightness := fun i => if i = strip then scale else s.brightness i }
  | Action.setPixel8 strip pixel r g b =>
      { s with buffer := fun i j =>
          if i = strip ∧ j = pixel then { red := r, green := g, blue := b } else s.buffer i j }
  | Action.sendBuffers => { s with transmitted := s.transmitted ++ [s.buffer] }
  | Action.diagUnknownCommand _ => s

/-- Run a trace of driver calls on the rig, left to right. -/
def runActions (s : RigState) (as : List Action) : RigState :=
  as.foldl stepAction s

/-- A concrete rig state: everything dark, nothing transmitted. -/
def initState : RigState :=
  { brightness := fun _ => 0
    buffer := fun _ _ => { red := 0, green := 0, blue := 0 }
    transmitted := [] }

lemma runActions_nil (s : RigState) : runActions s [] = s := rfl

lemma runActions_cons (s : RigState) (a : Action) (as : List Action) :
    runActions s (a :: as) = runActions (stepAction s a) as := rfl

lemma runActions_append (s : RigState) (as bs : List Action) :
    runActions s (as ++ bs) = runActions (runActions s as) bs := by
  simp [runActions, List.foldl_append]

lemma runActions_singleton (s : RigState) (a : Action) :
    runActions s [a] = stepAction s a := rfl

/-- Running the brightness-setting loop over strips `0..n-1` sets exactly the scales
of strips below `n` and leaves every other strip alone. -/
lemma brightness_runActions_range (q : ℚ) (n : Nat) (s : RigState) (i : Nat) :
    (runActions s ((List.range n).map
        (fun k => Action.setBrightnessScale k q))).brightness i
      = if i < n then q else s.brightness i := by
  induction n generalizing s with
  | zero => simp [runActions]
  | succ m ih =>
    rw [List.range_succ, List.map_append, runActions_append]
    simp only [List.map_cons, List.map_nil, runActions_singleton]
    rw [stepAction]
    simp only [RigState.mk.injEq]
    rcases Nat.lt_trichotomy i m with h | h | h
    · simp [ih, h, Nat.lt_succ_of_lt h, Nat.ne_of_lt h]
    · simp [h]
    · have h1 : ¬ i < m := Nat.not_lt.mpr (Nat.le_of_lt h)
      have h2 : ¬ i < m + 1 := Nat.not_lt.mpr h
      have h3 : i ≠ m := Nat.ne_of_gt h
      simp [ih, h1, h2, h3]

lemma transmitted_stepAction (s : RigState) (a : Action) (h : a ≠ Action.sendBuffers) :
    (stepAction s a).transmitted = s.transmitted := by
  cases a <;> simp_all [stepAction]

lemma buffer_stepAction_of_brightness (s : RigState) (strip : Nat) (q : ℚ) :
    (stepAction s (Action.setBrightnessScale strip q)).buffer = s.buffer := rfl

lemma transmitted_runActions (s : RigState) (as : List Action)
    (h : Action.sendBuffers ∉ as) :
    (runActions s as).transmitted = s.transmitted := by
  induction as generalizing s with
  | nil => rfl
  | cons a as ih =>
    rw [runActions_cons, ih (stepAction s a) (fun hm => h (List.mem_cons_of_mem a hm))]
    exact transmitted_stepAction s a (fun ha => h (ha ▸ List.mem_cons_self a as))

/-- Whatever driver calls run later, the transmitted history only grows: earlier
snapshots are never altered or removed. -/
lemma transmitted_runActions_extends (as : List Action) (s : RigState) :
    ∃ t, (runActions s as).transmitted = s.transmitted ++ t := by
  induction as generalizing s with
  | nil => exact ⟨[], by simp [runActions]⟩
  | cons a as ih =>
    obtain ⟨t, ht⟩ := ih (stepAction s a)
    rw [runActions_cons]
    cases a with
    | sendBuffers =>
      refine ⟨s.buffer :: t, ?_⟩
      rw [ht]
      simp [stepAction]
    | setBrightnessScale strip q => exact ⟨t, by rw [ht]; simp [stepAction]⟩
    | setPixel8 strip pixel r g b => exact ⟨t, by rw [ht]; simp [stepAction]⟩
    | diagUnknownCommand tag => exact ⟨t, by rw [ht]; simp [stepAction]⟩

lemma sendBuffers_not_mem_HandlePusherCommand (ns : Nat) (buf : List Nat) (size : Nat) :
    Action.sendBuffers ∉ APA102SpixelsDevice.HandlePusherCommand ns buf size := by
  unfold APA102SpixelsDevice.HandlePusherCommand
  split_ifs <;> simp

lemma sendBuffers_not_mem_SetPixel (ns strip pixel : Nat) (col : PixelColor) :
    Action.sendBuffers ∉ APA102SpixelsDevice.SetPixel ns strip pixel col := by
  unfold APA102SpixelsDevice.SetPixel
  split_ifs <;> simp

lemma APA102_runOp_fst (d : APA102SpixelsDevice.State) (op : DeviceOp) :
    (APA102SpixelsDevice.runOp d op).fst = d := by
  cases op <;> rfl

lemma APA102_runOps_eq (d : APA102SpixelsDevice.State) (ops : List DeviceOp) :
    APA102SpixelsDevice.runOps d ops = d := by
  induction ops generalizing d with
  | nil => rfl
  | cons op ops ih =>
    unfold APA102SpixelsDevice.runOps
    rw [List.foldl_cons, APA102_runOp_fst]
    exact ih d

lemma SetPixel_trace_of_lt (ns strip pixel : Nat) (col : PixelColor) (h : strip < ns) :
    APA102SpixelsDevice.SetPixel ns strip pixel col
      = [Action.setPixel8 strip pixel col.red col.green col.blue] := by
  unfold APA102SpixelsDevice.SetPixel
  rw [if_pos h]

lemma buffer_runActions_SetPixel (ns strip pixel : Nat) (col : PixelColor) (s : RigState)
    (h : strip < ns) :
    (runActions s (APA102SpixelsDevice.SetPixel ns strip pixel col)).buffer strip pixel
      = col := by
  rw [SetPixel_trace_of_lt ns strip pixel col h, runActions_singleton]
  show (if strip = strip ∧ pixel = pixel then _ else _) = col
  rw [if_pos ⟨rfl, rfl⟩]

lemma transmitted_runActions_FlushFrame (s : RigState) :
    (runActions s APA102SpixelsDevice.FlushFrame).transmitted
      = s.transmitted ++ [s.buffer] := rfl

/-- Claim C1: a GlobalBrightness command of size at least 3 sets the brightness scale
of every strip index below `num_strips` to exactly `(v + 1) / 65536` where `v` is the
little-endian 16-bit value in bytes 1-2; the scale is strictly positive (never zero),
`v = 65535` gives exactly 1, and `v = 0` gives exactly `1 / 65536`. -/
theorem C1_global_brightness_sets_every_strip (ns size : Nat) (buf : List Nat)
    (s : RigState) (htag : buf.getD 0 0 = PPPusherCommandGlobalBrightness)
    (hsize : 3 ≤ size) :
    (∀ strip, strip < ns →
        (runActions s
            (APA102SpixelsDevice.HandlePusherCommand ns buf size)).brightness strip
          = ((read16LE buf 1 : ℚ) + 1) / 65536) ∧
      (0 : ℚ) < ((read16LE buf 1 : ℚ) + 1) / 65536 ∧
      (read16LE buf 1 = 65535 → ((read16LE buf 1 : ℚ) + 1) / 65536 = 1) ∧
      (read16LE buf 1 = 0 → ((read16LE buf 1 : ℚ) + 1) / 65536 = 1 / 65536) := by
  have h1 : 1 ≤ size := le_trans (by norm_num) hsize
  refine ⟨?_, ?_, ?_, ?_⟩
  · intro strip hstrip
    unfold APA102SpixelsDevice.HandlePusherCommand
    rw [if_pos h1, if_pos htag, if_pos hsize]
    rw [brightness_runActions_range, if_pos hstrip]
    unfold brightnessScale
    push_cast
    ring
  · positivity
  · intro h
    rw [h]
    norm_num
  · intro h
    rw [h]
    norm_num

theorem C1_witness :
    (∀ strip, strip < 4 →
        (runActions initState
            (APA102SpixelsDevice.HandlePusherCommand 4 [2, 255, 255] 3)).brightness strip
          = ((read16LE [2, 255, 255] 1 : ℚ) + 1) / 65536) ∧
      (0 : ℚ) < ((read16LE [2, 255, 255] 1 : ℚ) + 1) / 65536 ∧
      (read16LE [2, 255, 255] 1 = 65535 →
        ((read16LE [2, 255, 255] 1 : ℚ) + 1) / 65536 = 1) ∧
      (read16LE [2, 255, 255] 1 = 0 →
        ((read16LE [2, 255, 255] 1 : ℚ) + 1) / 65536 = 1 / 65536) :=
  C1_global_brightness_sets_every_strip 4 3 [2, 255, 255] initState (by decide) (by decide)

/-- Claim C3: a StripBrightness command of size at least 4 whose strip-index byte is
below `num_strips` sets the brightness scale of that strip only, leaving the scale of
every other strip index unchanged. -/
theorem C3_strip_brightness_targets_one_strip (ns size : Nat) (buf : List Nat)
    (s : RigState) (htag : buf.getD 0 0 = PPPusherCommandStripBrightness)
    (hsize : 4 ≤ size) (hk : buf.getD 1 0 < ns) :
    (runActions s
        (APA102SpixelsDevice.HandlePusherCommand ns buf size)).brightness (buf.getD 1 0)
      = ((read16LE buf 2 : ℚ) + 1) / 65536 ∧
    ∀ j, j ≠ buf.getD 1 0 →
      (runActions s (APA102SpixelsDevice.HandlePusherCommand ns buf size)).brightness j
        = s.brightness j := by
  have h1 : 1 ≤ size := le_trans (by norm_num) hsize
  have hne : buf.getD 0 0 ≠ PPPusherCommandGlobalBrightness := by
    rw [htag]
    decide
  have htr : APA102SpixelsDevice.HandlePusherCommand ns buf size
      = [Action.setBrightnessScale (buf.getD 1 0) (brightnessScale (read16LE buf 2 + 1))] := by
    unfold APA102SpixelsDevice.HandlePusherCommand
    rw [if_pos h1, if_neg hne, if_pos htag, if_pos hsize, if_pos hk]
  rw [htr, runActions_singleton]
  constructor
  · show (if buf.getD 1 0 = buf.getD 1 0 then brightnessScale (read16LE buf 2 + 1)
      else s.brightness (buf.getD 1 0)) = _
    rw [if_pos rfl]
    unfold brightnessScale
    push_cast
    ring
  · intro j hj
    show (if j = buf.getD 1 0 then brightnessScale (read16LE buf 2 + 1)
      else s.brightness j) = s.brightness j
    rw [if_neg hj]

theorem C3_witness :
    ((runActions initState
        (APA102SpixelsDevice.HandlePusherCommand 4 [5, 1, 0, 0] 4)).brightness
          ([5, 1, 0, 0].getD 1 0)
      = ((read16LE [5, 1, 0, 0] 2 : ℚ) + 1) / 65536) ∧
    ∀ j, j ≠ [5, 1, 0, 0].getD 1 0 →
      (runActions initState
          (APA102SpixelsDevice.HandlePusherCommand 4 [5, 1, 0, 0] 4)).brightness j
        = initState.brightness j :=
  C3_strip_brightness_targets_one_strip 4 4 [5, 1, 0, 0] initState
    (by decide) (by decide) (by decide)

/-- Claim C4: a StripBrightness command of size at least 4 whose strip-index byte is
at least `num_strips` is silently ignored: the adapter makes no driver calls and the
rig state is unchanged. -/
theorem C4_strip_brightness_out_of_range_ignored (ns size : Nat) (buf : List Nat)
    (s : RigState) (htag : buf.getD 0 0 = PPPusherCommandStripBrightness)
    (hsize : 4 ≤ size) (hk : ns ≤ buf.getD 1 0) :
    APA102SpixelsDevice.HandlePusherCommand ns buf size = [] ∧
      runActions s (APA102SpixelsDevice.HandlePusherCommand ns buf size) = s := by
  have h1 : 1 ≤ size := le_trans (by norm_num) hsize
  have hne : buf.getD 0 0 ≠ PPPusherCommandGlobalBrightness := by
    rw [htag]
    decide
  have htr : APA102SpixelsDevice.HandlePusherCommand ns buf size = [] := by
    unfold APA102SpixelsDevice.HandlePusherCommand
    rw [if_pos h1, if_neg hne, if_pos htag, if_pos hsize, if_neg (Nat.not_lt.mpr hk)]
  exact ⟨htr, by rw [htr, runActions_nil]⟩

theorem C4_witness :
    (APA102SpixelsDevice.HandlePusherCommand 4 [5, 7, 255, 255] 4 = [] ∧
      runActions initState (APA102SpixelsDevice.HandlePusherCommand 4 [5, 7, 255, 255] 4)
        = initState) :=
  C4_strip_brightness_out_of_range_ignored 4 4 [5, 7, 255, 255] initState
    (by decide) (by decide) (by decide)

/-- Claim C9: the strip targeted by a StripBrightness command of sufficient size is
the unsigned 0-based index given by byte 1: for every byte value `b` below 256, when
`b < num_strips` (for any strip count up to 256) the command resolves to a single
brightness write on strip `b`. -/
theorem C9_strip_index_is_byte_one (ns size b : Nat) (buf : List Nat) (s : RigState)
    (htag : buf.getD 0 0 = PPPusherCommandStripBrightness) (hsize : 4 ≤ size)
    (hb : buf.getD 1 0 = b) (hb255 : b ≤ 255) (hlt : b < ns) (hns : ns ≤ 256) :
    APA102SpixelsDevice.HandlePusherCommand ns buf size
        = [Action.setBrightnessScale b (brightnessScale (read16LE buf 2 + 1))] ∧
      (runActions s (APA102SpixelsDevice.HandlePusherCommand ns buf size)).brightness b
        = ((read16LE buf 2 : ℚ) + 1) / 65536 := by
  have h1 : 1 ≤ size := le_trans (by norm_num) hsize
  have hne : buf.getD 0 0 ≠ PPPusherCommandGlobalBrightness := by
    rw [htag]
    decide
  have hk : buf.getD 1 0 < ns := by rw [hb]; exact hlt
  have htr : APA102SpixelsDevice.HandlePusherCommand ns buf size
      = [Action.setBrightnessScale b (brightnessScale (read16LE buf 2 + 1))] := by
    unfold APA102SpixelsDevice.HandlePusherCommand
    rw [if_pos h1, if_neg hne, if_pos htag, if_pos hsize, if_pos hk, hb]
  refine ⟨htr, ?_⟩
  rw [htr, runActions_singleton]
  show (if b = b then brightnessScale (read16LE buf 2 + 1) else s.brightness b) = _
  rw [if_pos rfl]
  unfold brightnessScale
  push_cast
  ring

theorem C9_witness :
    (APA102SpixelsDevice.HandlePusherCommand 256 [5, 255, 0, 0] 4
        = [Action.setBrightnessScale 255 (brightnessScale (read16LE [5, 255, 0, 0] 2 + 1))] ∧
      (runActions initState
          (APA102SpixelsDevice.HandlePusherCommand 256 [5, 255, 0, 0] 4)).brightness 255
        = ((read16LE [5, 255, 0, 0] 2 : ℚ) + 1) / 65536) :=
  C9_strip_index_is_byte_one 256 4 255 [5, 255, 0, 0] initState
    (by decide) (by decide) (by decide) (by decide) (by decide) (by decide)

/-- Claim C5: `SetPixel(strip, pixel, color)` is a silent no-op when
`strip >= num_strips`, and otherwise forwards exactly one `SetPixel8` call carrying
`(pixel, red, green, blue)` to strip `strip`, with no check on the pixel index (the
pixel index is arbitrary here); the call only buffers — the transmitted history is
unchanged and the new color sits in the strip's buffer. -/
theorem C5_set_pixel_forwarding (ns strip pixel : Nat) (col : PixelColor)
    (s : RigState) :
    (ns ≤ strip → APA102SpixelsDevice.SetPixel ns strip pixel col = []) ∧
      (strip < ns →
        APA102SpixelsDevice.SetPixel ns strip pixel col
            = [Action.setPixel8 strip pixel col.red col.green col.blue] ∧
          (runActions s (APA102SpixelsDevice.SetPixel ns strip pixel col)).transmitted
            = s.transmitted ∧
          (runActions s (APA102SpixelsDevice.SetPixel ns strip pixel col)).buffer strip pixel
            = col) := by
  constructor
  · intro h
    unfold APA102SpixelsDevice.SetPixel
    rw [if_neg (Nat.not_lt.mpr h)]
  · intro h
    refine ⟨SetPixel_trace_of_lt ns strip pixel col h, ?_, ?_⟩
    · exact transmitted_runActions s _ (sendBuffers_not_mem_SetPixel ns strip pixel col)
    · exact buffer_runActions_SetPixel ns strip pixel col s h

theorem C5_witness :
    ((4 : Nat) ≤ 1 → APA102SpixelsDevice.SetPixel 4 1 5000 ⟨10, 20, 30⟩ = []) ∧
      ((1 : Nat) < 4 →
        APA102SpixelsDevice.SetPixel 4 1 5000 ⟨10, 20, 30⟩
            = [Action.setPixel8 1 5000 10 20 30] ∧
          (runActions initState
              (APA102SpixelsDevice.SetPixel 4 1 5000 ⟨10, 20, 30⟩)).transmitted
            = initState.transmitted ∧
          (runActions initState
              (APA102SpixelsDevice.SetPixel 4 1 5000 ⟨10, 20, 30⟩)).buffer 1 5000
            = ⟨10, 20, 30⟩) :=
  C5_set_pixel_forwarding 4 1 5000 ⟨10, 20, 30⟩ initState

/-- Claim C6: an empty command buffer, or one whose size is below the payload its
tag requires (3 for GlobalBrightness, 4 for StripBrightness), is silently ignored
with no state change; and for any size the handler reads no byte at or beyond offset
`size` — two buffers that agree on bytes `0..size-1` produce the same driver calls. -/
theorem C6_undersized_commands_ignored (ns size : Nat) (buf buf2 : List Nat)
    (s : RigState) (hagree : ∀ i, i < size → buf.getD i 0 = buf2.getD i 0) :
    APA102SpixelsDevice.HandlePusherCommand ns buf size
        = APA102SpixelsDevice.HandlePusherCommand ns buf2 size ∧
      (size = 0 →
        APA102SpixelsDevice.HandlePusherCommand ns buf size = [] ∧
          runActions s (APA102SpixelsDevice.HandlePusherCommand ns buf size) = s) ∧
      (buf.getD 0 0 = PPPusherCommandGlobalBrightness → size < 3 →
        APA102SpixelsDevice.HandlePusherCommand ns buf size = [] ∧
          runActions s (APA102SpixelsDevice.HandlePusherCommand ns buf size) = s) ∧
      (buf.getD 0 0 = PPPusherCommandStripBrightness → size < 4 →
        APA102SpixelsDevice.HandlePusherCommand ns buf size = [] ∧
          runActions s (APA102SpixelsDevice.HandlePusherCommand ns buf size) = s) := by
  refine ⟨?_, ?_, ?_, ?_⟩
  · unfold APA102SpixelsDevice.HandlePusherCommand
    by_cases h1 : 1 ≤ size
    · have h0 : buf.getD 0 0 = buf2.getD 0 0 := hagree 0 (by omega)
      rw [if_pos h1, if_pos h1, h0]
      by_cases hg : buf2.getD 0 0 = PPPusherCommandGlobalBrightness
      · rw [if_pos hg, if_pos hg]
        by_cases h3 : 3 ≤ size
        · rw [if_pos h3, if_pos h3]
          have e1 : read16LE buf 1 = read16LE buf2 1 := by
            unfold read16LE
            rw [hagree 1 (by omega), hagree 2 (by omega)]
          rw [e1]
        · rw [if_neg h3, if_neg h3]
      · rw [if_neg hg, if_neg hg]
        by_cases hs : buf2.getD 0 0 = PPPusherCommandStripBrightness
        · rw [if_pos hs, if_pos hs]
          by_cases h4 : 4 ≤ size
          · rw [if_pos h4, if_pos h4]
            have e1 : buf.getD 1 0 = buf2.getD 1 0 := hagree 1 (by omega)
            have e2 : read16LE buf 2 = read16LE buf2 2 := by
              unfold read16LE
              rw [hagree 2 (by omega), hagree 3 (by omega)]
            rw [e1, e2]
          · rw [if_neg h4, if_neg h4]
        · rw [if_neg hs, if_neg hs]
    · rw [if_neg h1, if_neg h1]
  · intro h0
    have htr : APA102SpixelsDevice.HandlePusherCommand ns buf size = [] := by
      unfold APA102SpixelsDevice.HandlePusherCommand
      rw [if_neg (by omega : ¬ 1 ≤ size)]
    exact ⟨htr, by rw [htr, runActions_nil]⟩
  · intro htag h3
    have htr : APA102SpixelsDevice.HandlePusherCommand ns buf size = [] := by
      unfold APA102SpixelsDevice.HandlePusherCommand
      by_cases h1 : 1 ≤ size
      · rw [if_pos h1, if_pos htag, if_neg (by omega : ¬ 3 ≤ size)]
      · rw [if_neg h1]
    exact ⟨htr, by rw [htr, runActions_nil]⟩
  · intro htag h4
    have hne : buf.getD 0 0 ≠ PPPusherCommandGlobalBrightness := by
      rw [htag]
      decide
    have htr : APA102SpixelsDevice.HandlePusherCommand ns buf size = [] := by
      unfold APA102SpixelsDevice.HandlePusherCommand
      by_cases h1 : 1 ≤ size
      · rw [if_pos h1, if_neg hne, if_pos htag, if_neg (by omega : ¬ 4 ≤ size)]
      · rw [if_neg h1]
    exact ⟨htr, by rw [htr, runActions_nil]⟩

theorem C6_witness :
    (APA102SpixelsDevice.HandlePusherCommand 4 [2, 7] 2
        = APA102SpixelsDevice.HandlePusherCommand 4 [2, 7, 255] 2 ∧
      ((2 : Nat) = 0 →
        APA102SpixelsDevice.HandlePusherCommand 4 [2, 7] 2 = [] ∧
          runActions initState (APA102SpixelsDevice.HandlePusherCommand 4 [2, 7] 2)
            = initState) ∧
      ([2, 7].getD 0 0 = PPPusherCommandGlobalBrightness → 2 < 3 →
        APA102SpixelsDevice.HandlePusherCommand 4 [2, 7] 2 = [] ∧
          runActions initState (APA102SpixelsDevice.HandlePusherCommand 4 [2, 7] 2)
            = initState) ∧
      ([2, 7].getD 0 0 = PPPusherCommandStripBrightness → 2 < 4 →
        APA102SpixelsDevice.HandlePusherCommand 4 [2, 7] 2 = [] ∧
          runActions initState (APA102SpixelsDevice.HandlePusherCommand 4 [2, 7] 2)
            = initState)) :=
  C6_undersized_commands_ignored 4 2 [2, 7] [2, 7, 255] initState
    (by decide)

/-- Claim C7: `FlushFrame` is exactly one `SendBuffers` call and is the only adapter
operation that emits one; a `SetPixel` leaves the transmitted history untouched and
only writes the buffer, a following `FlushFrame` transmits a snapshot containing the
buffered color, and nothing run after a flush (in particular later `SetPixel`
traces) alters the snapshot that flush transmitted. -/
theorem C7_flush_is_sole_transmit (ns strip pixel size : Nat) (buf : List Nat)
    (col : PixelColor) (s : RigState) (as : List Action) (hstrip : strip < ns) :
    APA102SpixelsDevice.FlushFrame = [Action.sendBuffers] ∧
      (runActions s APA102SpixelsDevice.FlushFrame).transmitted
        = s.transmitted ++ [s.buffer] ∧
      Action.sendBuffers ∉ APA102SpixelsDevice.HandlePusherCommand ns buf size ∧
      Action.sendBuffers ∉ APA102SpixelsDevice.SetPixel ns strip pixel col ∧
      (runActions s (APA102SpixelsDevice.SetPixel ns strip pixel col)).transmitted
        = s.transmitted ∧
      (runActions s (APA102SpixelsDevice.SetPixel ns strip pixel col
          ++ APA102SpixelsDevice.FlushFrame)).transmitted
        = s.transmitted
            ++ [(runActions s (APA102SpixelsDevice.SetPixel ns strip pixel col)).buffer] ∧
      (runActions s (APA102SpixelsDevice.SetPixel ns strip pixel col)).buffer strip pixel
        = col ∧
      ∃ t, (runActions (runActions s APA102SpixelsDevice.FlushFrame) as).transmitted
        = s.transmitted ++ [s.buffer] ++ t := by
  refine ⟨rfl, transmitted_runActions_FlushFrame s, ?_, ?_, ?_, ?_, ?_, ?_⟩
  · exact sendBuffers_not_mem_HandlePusherCommand ns buf size
  · exact sendBuffers_not_mem_SetPixel ns strip pixel col
  · exact transmitted_runActions s _ (sendBuffers_not_mem_SetPixel ns strip pixel col)
  · rw [runActions_append, transmitted_runActions_FlushFrame,
      transmitted_runActions s _ (sendBuffers_not_mem_SetPixel ns strip pixel col)]
  · exact buffer_runActions_SetPixel ns strip pixel col s hstrip
  · obtain ⟨t, ht⟩ :=
      transmitted_runActions_extends as (runActions s APA102SpixelsDevice.FlushFrame)
    exact ⟨t, by rw [ht, transmitted_runActions_FlushFrame]⟩

theorem C7_witness :
    (APA102SpixelsDevice.FlushFrame = [Action.sendBuffers] ∧
      (runActions initState APA102SpixelsDevice.FlushFrame).transmitted
        = initState.transmitted ++ [initState.buffer] ∧
      Action.sendBuffers ∉ APA102SpixelsDevice.HandlePusherCommand 4 [2, 255, 255] 3 ∧
      Action.sendBuffers ∉ APA102SpixelsDevice.SetPixel 4 1 2 ⟨10, 20, 30⟩ ∧
      (runActions initState (APA102SpixelsDevice.SetPixel 4 1 2 ⟨10, 20, 30⟩)).transmitted
        = initState.transmitted ∧
      (runActions initState (APA102SpixelsDevice.SetPixel 4 1 2 ⟨10, 20, 30⟩
          ++ APA102SpixelsDevice.FlushFrame)).transmitted
        = initState.transmitted
            ++ [(runActions initState
                  (APA102SpixelsDevice.SetPixel 4 1 2 ⟨10, 20, 30⟩)).buffer] ∧
      (runActions initState (APA102SpixelsDevice.SetPixel 4 1 2 ⟨10, 20, 30⟩)).buffer 1 2
        = ⟨10, 20, 30⟩ ∧
      ∃ t, (runActions (runActions initState APA102SpixelsDevice.FlushFrame)
            (APA102SpixelsDevice.SetPixel 4 1 2 ⟨10, 20, 30⟩)).transmitted
        = initState.transmitted ++ [initState.buffer] ++ t) :=
  C7_flush_is_sole_transmit 4 1 2 3 [2, 255, 255] ⟨10, 20, 30⟩ initState
    (APA102SpixelsDevice.SetPixel 4 1 2 ⟨10, 20, 30⟩) (by decide)

/-- Claim C8: a nonempty command whose tag is neither GlobalBrightness nor
StripBrightness produces exactly the stderr diagnostic naming the tag and no driver
call; the rig state is unchanged and the handler returns normally. -/
theorem C8_unknown_tag_reported_no_state_change (ns size : Nat) (buf : List Nat)
    (s : RigState) (h1 : 1 ≤ size)
    (hg : buf.getD 0 0 ≠ PPPusherCommandGlobalBrightness)
    (hs : buf.getD 0 0 ≠ PPPusherCommandStripBrightness) :
    APA102SpixelsDevice.HandlePusherCommand ns buf size
        = [Action.diagUnknownCommand (buf.getD 0 0)] ∧
      runActions s (APA102SpixelsDevice.HandlePusherCommand ns buf size) = s := by
  have htr : APA102SpixelsDevice.HandlePusherCommand ns buf size
      = [Action.diagUnknownCommand (buf.getD 0 0)] := by
    unfold APA102SpixelsDevice.HandlePusherCommand
    rw [if_pos h1, if_neg hg, if_neg hs]
  refine ⟨htr, ?_⟩
  rw [htr, runActions_singleton]
  rfl

theorem C8_witness :
    (APA102SpixelsDevice.HandlePusherCommand 4 [17, 3, 4] 3
        = [Action.diagUnknownCommand ([17, 3, 4].getD 0 0)] ∧
      runActions initState (APA102SpixelsDevice.HandlePusherCommand 4 [17, 3, 4] 3)
        = initState) :=
  C8_unknown_tag_reported_no_state_change 4 3 [17, 3, 4] initState
    (by decide) (by decide) (by decide)

/-- Claim C10: after any sequence of protocol-server calls on a constructed adapter,
the strip-handle count still equals `num_strips`, every strip handle is bound to the
one shared bus controller, and `num_strips()` and `num_pixel_per_strip()` still
return the construction values. -/
theorem C10_topology_invariant (ns len spiId : Nat) (ops : List DeviceOp) :
    APA102SpixelsDevice.num_strips
        (APA102SpixelsDevice.runOps (APA102SpixelsDevice.construct ns len spiId) ops)
      = ns ∧
      APA102SpixelsDevice.num_pixel_per_strip
        (APA102SpixelsDevice.runOps (APA102SpixelsDevice.construct ns len spiId) ops)
      = len ∧
      (APA102SpixelsDevice.runOps
        (APA102SpixelsDevice.construct ns len spiId) ops).strips_.length = ns ∧
      ∀ h ∈ (APA102SpixelsDevice.runOps
          (APA102SpixelsDevice.construct ns len spiId) ops).strips_,
        h.spi = (APA102SpixelsDevice.runOps
          (APA102SpixelsDevice.construct ns len spiId) ops).spi_ := by
  rw [APA102_runOps_eq]
  refine ⟨rfl, rfl, ?_, ?_⟩
  · simp [APA102SpixelsDevice.construct]
  · intro h hmem
    simp only [APA102SpixelsDevice.construct, List.mem_map, List.mem_range] at hmem
    obtain ⟨k, _, rfl⟩ := hmem
    rfl

theorem C10_witness :
    (APA102SpixelsDevice.num_strips
        (APA102SpixelsDevice.runOps (APA102SpixelsDevice.construct 2 3 7)
          [DeviceOp.flushFrame, DeviceOp.setPixel 0 0 ⟨1, 2, 3⟩,
            DeviceOp.pusherCommand [2, 255, 255] 3])
      = 2 ∧
      APA102SpixelsDevice.num_pixel_per_strip
        (APA102SpixelsDevice.runOps (APA102SpixelsDevice.construct 2 3 7)
          [DeviceOp.flushFrame, DeviceOp.setPixel 0 0 ⟨1, 2, 3⟩,
            DeviceOp.pusherCommand [2, 255, 255] 3])
      = 3 ∧
      (APA102SpixelsDevice.runOps (APA102SpixelsDevice.construct 2 3 7)
          [DeviceOp.flushFrame, DeviceOp.setPixel 0 0 ⟨1, 2, 3⟩,
            DeviceOp.pusherCommand [2, 255, 255] 3]).strips_.length = 2 ∧
      ∀ h ∈ (APA102SpixelsDevice.runOps (APA102SpixelsDevice.construct 2 3 7)
          [DeviceOp.flushFrame, DeviceOp.setPixel 0 0 ⟨1, 2, 3⟩,
            DeviceOp.pusherCommand [2, 255, 255] 3]).strips_,
        h.spi = (APA102SpixelsDevice.runOps (APA102SpixelsDevice.construct 2 3 7)
          [DeviceOp.flushFrame, DeviceOp.setPixel 0 0 ⟨1, 2, 3⟩,
            DeviceOp.pusherCommand [2, 255, 255] 3]).spi_) :=
  C10_topology_invariant 2 3 7
    [DeviceOp.flushFrame, DeviceOp.setPixel 0 0 ⟨1, 2, 3⟩,
      DeviceOp.pusherCommand [2, 255, 255] 3]

/-- Claim C2 counterexample: the two variants do not perform identical command
handling.  On the GlobalBrightness command `[2, 255, 255]` with four strips, the
APA102 variant emits four `SetBrightnessScale` driver calls while the LPD6803
variant — which does not override `HandlePusherCommand` — emits none. -/
theorem C2_counterexample :
    APA102SpixelsDevice.HandlePusherCommand 4 [2, 255, 255] 3
      ≠ LPD6803SpixelsDevice.HandlePusherCommand 4 [2, 255, 255] 3 := by
  have hA : (APA102SpixelsDevice.HandlePusherCommand 4 [2, 255, 255] 3).length = 4 := rfl
  intro h
  rw [h] at hA
  exact absurd hA (by decide)

/-- Claim C2 amended: the two variants have identical `SetPixel` and `FlushFrame`
behaviour — the same driver-call trace for every input — but command handling
differs: `LPD6803SpixelsDevice` does not override `HandlePusherCommand`, so it makes
no driver calls for any pusher command, while the APA102 variant handles the two
brightness commands. -/
theorem C2_variants_agree_on_pixel_and_flush (ns strip pixel size : Nat)
    (buf : List Nat) (col : PixelColor) :
    LPD6803SpixelsDevice.SetPixel ns strip pixel col
        = APA102SpixelsDevice.SetPixel ns strip pixel col ∧
      LPD6803SpixelsDevice.FlushFrame = APA102SpixelsDevice.FlushFrame ∧
      LPD6803SpixelsDevice.HandlePusherCommand ns buf size = [] :=
  ⟨rfl, rfl, rfl⟩

end Spixels
